import Mathlib

/-!
Verification of the YouTube transcript generator's original logic
(`app.py`): URL-to-video-identifier resolution and the captions-first,
whisper-fallback transcription pipeline.

The Python source is embedded shallowly: pure helpers become Lean
functions, the external collaborators (captions retrieval, media
download, speech recognition) become function-valued parameters
collected in an `Env`, and the orchestrating button handler becomes a
pure function producing an outcome, the ordered list of pipeline stages
that ran, and the resulting filesystem state.
-/

namespace YTG

/-- Characters of the video-identifier alphabet `[0-9A-Za-z_-]`
used by all three recognition patterns. -/
def isIdChar (c : Char) : Bool :=
  c.isAlphanum || c == '_' || c == '-'

/-- Python `s.split(sep)[0]`: the prefix of `s` before the first
occurrence of `sep` (the whole string when `sep` is absent). -/
def pySplitHead (sep : Char) (l : List Char) : List Char :=
  l.takeWhile (fun c => !(c == sep))

/-- Line 24 of `app.py`:
`url = url.split('&')[0].split('?')[0] if '?' in url else url`. -/
def stripQuery (l : List Char) : List Char :=
  if l.contains '?' then pySplitHead '?' (pySplitHead '&' l) else l

/-- The capture group `([0-9A-Za-z_-]{11})`: exactly 11 identifier
characters starting here, or no match. -/
def grab11 (l : List Char) : Option (List Char) :=
  if (l.take 11).length = 11 && (l.take 11).all isIdChar then
    some (l.take 11)
  else
    none

/-- `re.search`: scan the match positions left to right (every suffix,
the empty one at the end included); the first position where the
pattern-at-position matcher `f` succeeds wins. -/
def reSearch (f : List Char → Option (List Char)) : List Char → Option (List Char)
  | [] => f []
  | c :: rest =>
    match f (c :: rest) with
    | some g => some g
    | none => reSearch f rest

/-- The pattern `(?:v=|/)([0-9A-Za-z_-]{11}).*` at one position: the
literal `v=` is tried before the literal `/` (regex alternation
order), each followed by the 11-character group; the trailing `.*`
always matches and is dropped. -/
def matchVSlashAt (s : List Char) : Option (List Char) :=
  if s.take 2 = ['v', '='] then grab11 (s.drop 2)
  else if s.take 1 = ['/'] then grab11 (s.drop 1)
  else none

/-- A literal followed by the 11-character group at one position, for
the patterns `youtu\.be/([0-9A-Za-z_-]{11})` and
`embed/([0-9A-Za-z_-]{11})`. -/
def matchLitAt (lit : List Char) (s : List Char) : Option (List Char) :=
  if lit.isPrefixOf s then grab11 (s.drop lit.length) else none

/-- Leftmost search of the first recognition pattern. -/
def searchVSlash (l : List Char) : Option (List Char) :=
  reSearch matchVSlashAt l

/-- Leftmost search of a literal-then-group pattern. -/
def searchAfterLit (lit : List Char) (l : List Char) : Option (List Char) :=
  reSearch (matchLitAt lit) l

/-- One iteration of the `for pattern in patterns` loop in
`extract_video_id`: a match whose group is 11 characters long is
returned, anything else falls through to the next pattern. -/
def patternStep (m : Option (List Char)) (next : Option (List Char)) :
    Option (List Char) :=
  match m with
  | some g => if g.length = 11 then some g else next
  | none => next

/-- `extract_video_id` (lines 21-37 of `app.py`): strip query
parameters, then try the three recognition patterns in order. -/
def extract_video_id (url : String) : Option (String) :=
  (patternStep (searchVSlash (stripQuery url.data))
    (patternStep (searchAfterLit "youtu.be/".data (stripQuery url.data))
      (patternStep (searchAfterLit "embed/".data (stripQuery url.data))
        none))).map String.mk

/-- One caption snippet as returned by the captions collaborator
(`{text, start, duration}`); only `text` is ever read by the program. -/
structure Snippet where
  text : String
  start : Rat
  duration : Rat
deriving DecidableEq

/-- Python `s.startswith(pre)`. -/
def pyStartsWith (s pre : String) : Bool :=
  pre.data.isPrefixOf s.data

/-- Python truthiness of an optional string (`if transcript:`):
falsy when `None` or the empty string. -/
def pyTruthyStr : Option String → Bool
  | none => false
  | some s => !(s == "")

/-- `get_existing_transcript` (lines 44-61 of `app.py`), with the
captions collaborator (`YouTubeTranscriptApi().fetch` followed by
`to_raw_data()`) abstracted as `fetch`: a raised exception is an
`Except.error` carrying `str(e)`.  Returns the `(transcript, method)`
pair of the source. -/
def get_existing_transcript (fetch : String → Except String (List Snippet))
    (video_url : String) : Option String × String :=
  match extract_video_id video_url with
  | none => (none, "Invalid URL")
  | some video_id =>
    match fetch video_id with
    | Except.error e => (none, "No captions: " ++ e)
    | Except.ok raw_data =>
      (some (String.intercalate "\n" (raw_data.map Snippet.text)), "captions")

/-- `download_audio` (lines 63-78 of `app.py`), with the
`yt_dlp.YoutubeDL(...).download` collaborator abstracted as `ydl`:
`True` on success, `False` when the collaborator raises. -/
def download_audio (ydl : String → String → Except String Unit)
    (video_url output_path : String) : Bool :=
  match ydl video_url output_path with
  | Except.ok _ => true
  | Except.error _ => false

/-- `transcribe_with_whisper` (lines 80-87 of `app.py`), with model
loading and `model.transcribe` abstracted as `whisper` (model size,
then audio path, to `result["text"]` or a raised exception). -/
def transcribe_with_whisper (whisper : String → String → Except String String)
    (audio_path model_size : String) : Option String × String :=
  match whisper model_size audio_path with
  | Except.ok t => (some t, "whisper")
  | Except.error e => (none, "Transcription failed: " ++ e)

/-- The three external collaborators and the files the downloader left
in the temporary directory (`os.listdir(temp_dir)` after a successful
download), plus the model size selected in the sidebar. -/
structure Env where
  fetch : String → Except String (List Snippet)
  ydl : String → String → Except String Unit
  filesAfterDownload : List String
  whisper : String → String → Except String String
  whisper_model : String

/-- The pipeline stages of the spec's state machine, recorded in
execution order: `downloadingAudio` marks the invocation of the
download collaborator, `transcribing` the invocation of the
speech-recognition collaborator. -/
inductive Stage where
  | checkingCaptions
  | downloadingAudio
  | transcribing
deriving DecidableEq

/-- Terminal outcome of one button-handler run: the two `Done` states
with their text, or `Failed` with the `st.error` message shown. -/
inductive Outcome where
  | doneCaptions (text : String)
  | doneWhisper (text : String)
  | failed (message : String)
deriving DecidableEq

/-- `with tempfile.TemporaryDirectory() as temp_dir:` — the directory
is on the filesystem while the body runs and is removed again on every
exit path of the block. -/
def withTemporaryDirectory (temp_dir : String) (fs : List String)
    (body : String → α) : α × List String :=
  (body temp_dir, ((temp_dir :: fs).filter (fun p => !(p == temp_dir))))

/-- The guard on line 126 of `app.py`:
`if transcript and method == "captions":`. -/
def captionsOk (fetch : String → Except String (List Snippet))
    (video_url : String) : Bool :=
  pyTruthyStr (get_existing_transcript fetch video_url).1 &&
    ((get_existing_transcript fetch video_url).2 == "captions")

/-- The body of the `with tempfile.TemporaryDirectory()` block
(lines 157-196 of `app.py`): download, locate the `audio*` file,
transcribe.  Returns the outcome and the stages run inside the block. -/
def pipelineFallback (env : Env) (video_url temp_dir : String) :
    Outcome × List Stage :=
  if download_audio env.ydl video_url (temp_dir ++ "/audio.%(ext)s") then
    match env.filesAfterDownload.filter (fun f => pyStartsWith f "audio") with
    | [] =>
      (Outcome.failed "❌ Audio file not found after download",
        [Stage.downloadingAudio])
    | f :: _ =>
      ((if pyTruthyStr (transcribe_with_whisper env.whisper
            (temp_dir ++ "/" ++ f) env.whisper_model).1 then
          Outcome.doneWhisper
            ((transcribe_with_whisper env.whisper
              (temp_dir ++ "/" ++ f) env.whisper_model).1.getD "")
        else
          Outcome.failed "❌ Failed to transcribe audio"),
        [Stage.downloadingAudio, Stage.transcribing])
  else
    (Outcome.failed "❌ Failed to download video audio",
      [Stage.downloadingAudio])

/-- Result of one button-handler run: the terminal outcome, the stages
in execution order, and the filesystem (list of directories) after the
run. -/
structure RunResult where
  outcome : Outcome
  stages : List Stage
  fsAfter : List String
deriving DecidableEq

/-- The `Generate Transcript` button handler (lines 113-201 of
`app.py`): try existing captions first; otherwise download audio into
a scoped temporary directory and transcribe it.  `temp_dir` is the
fresh directory `tempfile.TemporaryDirectory()` would create, `fs` the
filesystem before the run. -/
def runPipeline (env : Env) (video_url temp_dir : String)
    (fs : List String) : RunResult :=
  if captionsOk env.fetch video_url then
    RunResult.mk
      (Outcome.doneCaptions
        ((get_existing_transcript env.fetch video_url).1.getD ""))
      [Stage.checkingCaptions]
      fs
  else
    RunResult.mk
      (withTemporaryDirectory temp_dir fs
        (fun td => pipelineFallback env video_url td)).1.1
      (Stage.checkingCaptions ::
        (withTemporaryDirectory temp_dir fs
          (fun td => pipelineFallback env video_url td)).1.2)
      (withTemporaryDirectory temp_dir fs
        (fun td => pipelineFallback env video_url td)).2

/-- Collaborators for a video whose captions track is a single snippet
with empty text. -/
def envEmptyCaption : Env :=
  Env.mk (fun _ => Except.ok [Snippet.mk "" 0 0])
    (fun _ _ => Except.error "network error") []
    (fun _ _ => Except.error "whisper error") "base"

/-- Collaborators for a video with two caption snippets. -/
def envTwoCaptions : Env :=
  Env.mk (fun _ => Except.ok [Snippet.mk "hello" 0 2, Snippet.mk "world" 2 2])
    (fun _ _ => Except.error "network error") []
    (fun _ _ => Except.error "whisper error") "base"

/-- Collaborators that all fail. -/
def envAllFail : Env :=
  Env.mk (fun _ => Except.error "no captions")
    (fun _ _ => Except.error "yt-dlp error") []
    (fun _ _ => Except.error "whisper error") "tiny"

/-- Collaborators where captions are unavailable and the download
reports success but leaves only a file not named `audio*`. -/
def envAudioLost : Env :=
  Env.mk (fun _ => Except.error "no captions")
    (fun _ _ => Except.ok ()) ["video.mp4"]
    (fun _ _ => Except.error "whisper error") "base"

/-- Collaborators where the captions call succeeds with zero
snippets. -/
def envZeroSnippets : Env :=
  Env.mk (fun _ => Except.ok [])
    (fun _ _ => Except.error "network error") []
    (fun _ _ => Except.error "whisper error") "base"

/-! Helper lemmas. -/

theorem grab11_sound {l g : List Char} (h : grab11 l = some g) :
    g.length = 11 ∧ g.all isIdChar = true := by
  unfold grab11 at h
  split at h
  · next hc =>
    cases h
    simpa [Bool.and_eq_true] using hc
  · exact absurd h (by simp)

theorem matchVSlashAt_sound {s g : List Char} (h : matchVSlashAt s = some g) :
    g.length = 11 ∧ g.all isIdChar = true := by
  unfold matchVSlashAt at h
  split at h
  · exact grab11_sound h
  · split at h
    · exact grab11_sound h
    · exact absurd h (by simp)

theorem matchLitAt_sound {lit s g : List Char} (h : matchLitAt lit s = some g) :
    g.length = 11 ∧ g.all isIdChar = true := by
  unfold matchLitAt at h
  split at h
  · exact grab11_sound h
  · exact absurd h (by simp)

theorem reSearch_sound {f : List Char → Option (List Char)}
    (hf : ∀ {s g : List Char}, f s = some g →
      g.length = 11 ∧ g.all isIdChar = true) :
    ∀ {l g : List Char}, reSearch f l = some g →
      g.length = 11 ∧ g.all isIdChar = true := by
  intro l
  induction l with
  | nil => intro g h; exact hf h
  | cons c rest ih =>
    intro g h
    rw [reSearch] at h
    rcases hm : f (c :: rest) with _ | g0
    · rw [hm] at h
      exact ih h
    · rw [hm] at h
      cases h
      exact hf hm

theorem patternStep_sound {m next : Option (List Char)}
    (hm : ∀ {g : List Char}, m = some g → g.length = 11 ∧ g.all isIdChar = true)
    (hn : ∀ {g : List Char}, next = some g → g.length = 11 ∧ g.all isIdChar = true) :
    ∀ {g : List Char}, patternStep m next = some g →
      g.length = 11 ∧ g.all isIdChar = true := by
  intro g h
  unfold patternStep at h
  split at h
  · split at h
    · cases h; exact hm rfl
    · exact hn h
  · exact hn h

/-- C2: every identifier returned by `extract_video_id` is exactly 11
characters drawn from `[0-9A-Za-z_-]`; otherwise the result is `none`. -/
theorem extract_video_id_valid (url s : String)
    (h : extract_video_id url = some s) :
    s.length = 11 ∧ s.data.all isIdChar = true := by
  unfold extract_video_id at h
  rcases Option.map_eq_some'.mp h with ⟨g, hg, rfl⟩
  exact patternStep_sound
    (fun hm => reSearch_sound (fun hs => matchVSlashAt_sound hs) hm)
    (patternStep_sound
      (fun hm => reSearch_sound (fun hs => matchLitAt_sound hs) hm)
      (patternStep_sound
        (fun hm => reSearch_sound (fun hs => matchLitAt_sound hs) hm)
        (fun hn => by simp at hn))) hg

/-- Witness for C2 at the spec's own example URL. -/
theorem extract_video_id_valid_witness :
    ("LadcLQIKbNY" : String).length = 11 ∧
      ("LadcLQIKbNY" : String).data.all isIdChar = true :=
  extract_video_id_valid "https://youtu.be/LadcLQIKbNY?si=abc" "LadcLQIKbNY"
    (by decide)

theorem takeWhile_comp (p q : α → Bool) (l : List α) :
    (l.takeWhile p).takeWhile q = l.takeWhile (fun a => p a && q a) := by
  induction l with
  | nil => rfl
  | cons c rest ih =>
    by_cases hp : p c = true <;> by_cases hq : q c = true <;>
      simp [List.takeWhile, hp, hq, ih]

/-- C10: the query-parameter preprocessing is asymmetric in the two
separators.  When the input has no `?` nothing is stripped at all ( a
trailing `&...` suffix stays); when it has a `?` the string is cut at
whichever of `&` and `?` occurs first. -/
theorem stripQuery_asymmetric (l : List Char) :
    (l.contains '?' = false → stripQuery l = l) ∧
    (l.contains '?' = true →
      stripQuery l = l.takeWhile (fun c => !(c == '&') && !(c == '?'))) := by
  constructor
  · intro h
    unfold stripQuery
    rw [h]
    simp
  · intro h
    unfold stripQuery
    rw [h]
    simp only [if_true, pySplitHead]
    exact takeWhile_comp _ _ l

/-- Witness for C10: `"a&b"` (no `?`) is left whole, `&` suffix
included; `"a?b&c"` and `"a&b?c"` are cut at the earliest separator. -/
theorem stripQuery_asymmetric_witness :
    stripQuery "a&b".data = "a&b".data ∧
      stripQuery "a&b?c".data = "a".data ∧
      stripQuery "a?b&c".data = "a".data := by
  refine ⟨(stripQuery_asymmetric "a&b".data).1 (by decide), ?_, ?_⟩
  · exact ((stripQuery_asymmetric "a&b?c".data).2 (by decide)).trans (by decide)
  · exact ((stripQuery_asymmetric "a?b&c".data).2 (by decide)).trans (by decide)

/-- C1 (code bug): the first supported shape `.../watch?v=<11 chars>`
never survives the preprocessing of line 24 — the whole `v=<id>`
portion is stripped together with the query string, so extraction
returns `none` instead of the identifier; the in-app help text lists
`https://www.youtube.com/watch?v=VIDEO_ID` as a supported URL. -/
theorem extract_video_id_watch_url_fails :
    extract_video_id "https://www.youtube.com/watch?v=LadcLQIKbNY" = none := by
  decide

/-- C5: an error from the captions collaborator is caught inside
`get_existing_transcript` and reduced to a failure pair embedding the
collaborator's message; nothing propagates (the embedding is a total
function). -/
theorem get_existing_transcript_catches
    (fetch : String → Except String (List Snippet)) (url id e : String)
    (h1 : extract_video_id url = some id)
    (h2 : fetch id = Except.error e) :
    get_existing_transcript fetch url = (none, "No captions: " ++ e) := by
  simp [get_existing_transcript, h1, h2]

/-- Witness for C5: a collaborator that always reports
`"Subtitles are disabled for this video"`. -/
theorem get_existing_transcript_catches_witness :
    get_existing_transcript
        (fun _ => Except.error "Subtitles are disabled for this video")
        "https://youtu.be/LadcLQIKbNY"
      = (none, "No captions: Subtitles are disabled for this video") :=
  get_existing_transcript_catches _ _ "LadcLQIKbNY"
    "Subtitles are disabled for this video" (by decide) rfl

theorem fallback_mem_download (env : Env) (url d : String) :
    Stage.downloadingAudio ∈ (pipelineFallback env url d).2 := by
  unfold pipelineFallback
  split
  · split
    · simp
    · simp
  · simp

theorem runPipeline_captions_ok (env : Env) (url d : String)
    (fs : List String) (h : captionsOk env.fetch url = true) :
    runPipeline env url d fs =
      RunResult.mk
        (Outcome.doneCaptions
          ((get_existing_transcript env.fetch url).1.getD ""))
        [Stage.checkingCaptions] fs := by
  unfold runPipeline
  rw [h]
  simp

theorem runPipeline_captions_fail (env : Env) (url d : String)
    (fs : List String) (h : captionsOk env.fetch url = false) :
    runPipeline env url d fs =
      RunResult.mk (pipelineFallback env url d).1
        (Stage.checkingCaptions :: (pipelineFallback env url d).2)
        ((d :: fs).filter (fun p => !(p == d))) := by
  unfold runPipeline withTemporaryDirectory
  rw [h]
  simp

/-- C3 (amended): a successful captions call yields the pair
`(newline-joined snippet texts, "captions")`; whenever that joined
text is non-empty, the orchestrator never reaches the audio-download
stage. -/
theorem captions_success_joined
    (env : Env) (url id d : String) (fs : List String)
    (snips : List Snippet)
    (h1 : extract_video_id url = some id)
    (h2 : env.fetch id = Except.ok snips) :
    get_existing_transcript env.fetch url
        = (some (String.intercalate "\n" (snips.map Snippet.text)),
            "captions") ∧
      (String.intercalate "\n" (snips.map Snippet.text) ≠ "" →
        Stage.downloadingAudio ∉ (runPipeline env url d fs).stages) := by
  have hg : get_existing_transcript env.fetch url
      = (some (String.intercalate "\n" (snips.map Snippet.text)),
          "captions") := by
    simp [get_existing_transcript, h1, h2]
  refine ⟨hg, fun hne => ?_⟩
  have hc : captionsOk env.fetch url = true := by
    unfold captionsOk
    rw [hg]
    simp [pyTruthyStr, hne]
  rw [runPipeline_captions_ok env url d fs hc]
  simp

/-- Witness for C3 (amended) on a two-snippet captions track. -/
theorem captions_success_joined_witness :
    get_existing_transcript envTwoCaptions.fetch
        "https://youtu.be/LadcLQIKbNY" = (some "hello\nworld", "captions") ∧
      Stage.downloadingAudio ∉
        (runPipeline envTwoCaptions "https://youtu.be/LadcLQIKbNY"
          "/tmp/audio_dl" []).stages := by
  have h := captions_success_joined envTwoCaptions
    "https://youtu.be/LadcLQIKbNY" "LadcLQIKbNY" "/tmp/audio_dl" []
    [Snippet.mk "hello" 0 2, Snippet.mk "world" 2 2] (by decide) rfl
  exact ⟨h.1, h.2 (by decide)⟩

/-- C3 counterexample: the captions collaborator succeeds with one
snippet (whose text is empty), yet the orchestrator still invokes the
audio-download stage, because the `if transcript` truthiness guard
rejects the empty joined text. -/
theorem captions_one_empty_snippet_downloads :
    envEmptyCaption.fetch "LadcLQIKbNY"
        = Except.ok [Snippet.mk "" 0 0] ∧
      get_existing_transcript envEmptyCaption.fetch
        "https://youtu.be/LadcLQIKbNY" = (some "", "captions") ∧
      Stage.downloadingAudio ∈
        (runPipeline envEmptyCaption "https://youtu.be/LadcLQIKbNY"
          "/tmp/audio_dl" []).stages := by
  refine ⟨rfl, by decide, by decide⟩

/-- C4 (amended): when identifier extraction fails,
`get_existing_transcript` returns the failure pair
`(None, "Invalid URL")` for every possible captions collaborator (so
the captions collaborator is never consulted), but the orchestrator
does not short-circuit: it advances to the audio-download stage, and
only ends `Failed` with the download-failure message once that
download fails. -/
theorem invalid_url_behavior
    (env : Env) (url d : String) (fs : List String)
    (h : extract_video_id url = none) :
    get_existing_transcript env.fetch url = (none, "Invalid URL") ∧
      Stage.downloadingAudio ∈ (runPipeline env url d fs).stages ∧
      (download_audio env.ydl url (d ++ "/audio.%(ext)s") = false →
        (runPipeline env url d fs).outcome
          = Outcome.failed "❌ Failed to download video audio") := by
  have hg : get_existing_transcript env.fetch url = (none, "Invalid URL") := by
    simp [get_existing_transcript, h]
  have hc : captionsOk env.fetch url = false := by
    unfold captionsOk
    rw [hg]
    simp [pyTruthyStr]
  rw [runPipeline_captions_fail env url d fs hc]
  refine ⟨hg, List.mem_cons_of_mem _ (fallback_mem_download env url d),
    fun hd => ?_⟩
  unfold pipelineFallback
  rw [hd]
  simp

/-- Witness for C4 (amended) on the spec's example input
`"not a url"`, with a failing downloader. -/
theorem invalid_url_behavior_witness :
    get_existing_transcript envAllFail.fetch "not a url"
        = (none, "Invalid URL") ∧
      Stage.downloadingAudio ∈
        (runPipeline envAllFail "not a url" "/tmp/audio_dl" []).stages ∧
      (runPipeline envAllFail "not a url" "/tmp/audio_dl" []).outcome
        = Outcome.failed "❌ Failed to download video audio" := by
  have h := invalid_url_behavior envAllFail "not a url" "/tmp/audio_dl" []
    (by decide)
  exact ⟨h.1, h.2.1, h.2.2 rfl⟩

/-- C4 counterexample: on `"not a url"` the run does not stop at the
`Invalid URL` failure — the download collaborator is still invoked
(the `downloadingAudio` stage marks that invocation). -/
theorem invalid_url_still_downloads :
    get_existing_transcript envAllFail.fetch "not a url"
        = (none, "Invalid URL") ∧
      Stage.downloadingAudio ∈
        (runPipeline envAllFail "not a url" "/tmp/other_dl" []).stages := by
  exact ⟨by decide, by decide⟩

/-- C6: every run of the orchestrator is strictly sequential.  The
captions check always runs first and is the whole run when it
succeeds; otherwise the download stage runs exactly once, and the
transcription stage runs exactly once after it precisely when the
download succeeded and an `audio*` file exists; a download or
transcription failure is terminal, with no retry and no further
stage. -/
theorem pipeline_sequencing (env : Env) (url d : String)
    (fs : List String) :
    (captionsOk env.fetch url = true ∧
      (runPipeline env url d fs).stages = [Stage.checkingCaptions]) ∨
    (captionsOk env.fetch url = false ∧
      download_audio env.ydl url (d ++ "/audio.%(ext)s") = false ∧
      (runPipeline env url d fs).stages
        = [Stage.checkingCaptions, Stage.downloadingAudio] ∧
      (runPipeline env url d fs).outcome
        = Outcome.failed "❌ Failed to download video audio") ∨
    (captionsOk env.fetch url = false ∧
      download_audio env.ydl url (d ++ "/audio.%(ext)s") = true ∧
      env.filesAfterDownload.filter (fun f => pyStartsWith f "audio") = [] ∧
      (runPipeline env url d fs).stages
        = [Stage.checkingCaptions, Stage.downloadingAudio] ∧
      (runPipeline env url d fs).outcome
        = Outcome.failed "❌ Audio file not found after download") ∨
    (captionsOk env.fetch url = false ∧
      download_audio env.ydl url (d ++ "/audio.%(ext)s") = true ∧
      env.filesAfterDownload.filter (fun f => pyStartsWith f "audio") ≠ [] ∧
      (runPipeline env url d fs).stages
        = [Stage.checkingCaptions, Stage.downloadingAudio,
            Stage.transcribing]) := by
  by_cases hc : captionsOk env.fetch url = true
  · exact Or.inl ⟨hc, by rw [runPipeline_captions_ok env url d fs hc]⟩
  · have hc0 : captionsOk env.fetch url = false := by
      simpa using hc
    rw [runPipeline_captions_fail env url d fs hc0]
    by_cases hd : download_audio env.ydl url (d ++ "/audio.%(ext)s") = true
    · rcases hfl : env.filesAfterDownload.filter
          (fun f => pyStartsWith f "audio") with _ | ⟨f0, rest⟩
      · refine Or.inr (Or.inr (Or.inl ⟨hc0, hd, rfl, ?_, ?_⟩))
        · unfold pipelineFallback
          rw [hd, hfl]
          simp
        · unfold pipelineFallback
          rw [hd, hfl]
          simp
      · refine Or.inr (Or.inr (Or.inr ⟨hc0, hd, by simp, ?_⟩))
        unfold pipelineFallback
        rw [hd, hfl]
        simp
    · have hd0 : download_audio env.ydl url (d ++ "/audio.%(ext)s")
          = false := by
        simpa using hd
      refine Or.inr (Or.inl ⟨hc0, hd0, ?_, ?_⟩)
      · unfold pipelineFallback
        rw [hd0]
        simp
      · unfold pipelineFallback
        rw [hd0]
        simp

/-- C7: when the download reports success but no `audio*` file is in
the temporary directory, the run fails with the audio-file-missing
message and the transcription stage is never invoked. -/
theorem pipeline_audio_file_missing (env : Env) (url d : String)
    (fs : List String)
    (h1 : captionsOk env.fetch url = false)
    (h2 : download_audio env.ydl url (d ++ "/audio.%(ext)s") = true)
    (h3 : env.filesAfterDownload.filter (fun f => pyStartsWith f "audio")
      = []) :
    (runPipeline env url d fs).outcome
        = Outcome.failed "❌ Audio file not found after download" ∧
      Stage.transcribing ∉ (runPipeline env url d fs).stages := by
  rw [runPipeline_captions_fail env url d fs h1]
  unfold pipelineFallback
  rw [h2, h3]
  simp

/-- Witness for C7: the downloader succeeds but leaves only
`video.mp4`. -/
theorem pipeline_audio_file_missing_witness :
    (runPipeline envAudioLost "https://youtu.be/LadcLQIKbNY"
          "/tmp/audio_dl" []).outcome
        = Outcome.failed "❌ Audio file not found after download" ∧
      Stage.transcribing ∉
        (runPipeline envAudioLost "https://youtu.be/LadcLQIKbNY"
          "/tmp/audio_dl" []).stages :=
  pipeline_audio_file_missing envAudioLost "https://youtu.be/LadcLQIKbNY"
    "/tmp/audio_dl" [] (by decide) rfl (by decide)

/-- C8: any run that enters the audio-download path leaves the
filesystem without its temporary directory — the
`with tempfile.TemporaryDirectory()` scope removes it on every exit
path of the block. -/
theorem temp_dir_removed (env : Env) (url d : String) (fs : List String)
    (h : captionsOk env.fetch url = false) :
    d ∉ (runPipeline env url d fs).fsAfter := by
  rw [runPipeline_captions_fail env url d fs h]
  simp

/-- Witness for C8 on a run whose stages all fail. -/
theorem temp_dir_removed_witness :
    "/tmp/audio_dl" ∉
      (runPipeline envAllFail "https://youtu.be/LadcLQIKbNY"
        "/tmp/audio_dl" ["/", "/home"]).fsAfter :=
  temp_dir_removed envAllFail "https://youtu.be/LadcLQIKbNY"
    "/tmp/audio_dl" ["/", "/home"] (by decide)

/-- C9: a captions call that succeeds with zero snippets yields
`(some "", "captions")`, which the non-empptiness guard rejects, so
the run falls through to the audio-download stage. -/
theorem empty_captions_fall_through
    (env : Env) (url id d : String) (fs : List String)
    (h1 : extract_video_id url = some id)
    (h2 : env.fetch id = Except.ok []) :
    get_existing_transcript env.fetch url = (some "", "captions") ∧
      Stage.downloadingAudio ∈ (runPipeline env url d fs).stages := by
  have hg : get_existing_transcript env.fetch url
      = (some "", "captions") := by
    simp [get_existing_transcript, h1, h2, String.intercalate]
  have hc : captionsOk env.fetch url = false := by
    unfold captionsOk
    rw [hg]
    simp [pyTruthyStr]
  refine ⟨hg, ?_⟩
  rw [runPipeline_captions_fail env url d fs hc]
  exact List.mem_cons_of_mem _ (fallback_mem_download env url d)

/-- Witness for C9 on a collaborator returning an empty snippet
list. -/
theorem empty_captions_fall_through_witness :
    get_existing_transcript envZeroSnippets.fetch
        "https://youtu.be/LadcLQIKbNY" = (some "", "captions") ∧
      Stage.downloadingAudio ∈
        (runPipeline envZeroSnippets "https://youtu.be/LadcLQIKbNY"
          "/tmp/audio_dl" []).stages :=
  empty_captions_fall_through envZeroSnippets
    "https://youtu.be/LadcLQIKbNY" "LadcLQIKbNY" "/tmp/audio_dl" []
    (by decide) rfl

end YTG
